import Mathlib

/-!
Shallow embedding of the gsprotocol HTTP transport for Google Cloud Storage
(package gsprotocol, file containing `RoundTrip`, `getObject`, `headObject`,
`objectAttrs`, `handleError`, `scanETag`, `etagStrongMatch`, `etagWeakMatch`,
`checkIfMatch`, `checkIfUnmodifiedSince`, `checkIfNoneMatch`,
`checkIfModifiedSince`, `checkPreconditions`, `makeHeader`).

Modelling conventions:
* Go strings are Lean `String`s; byte-level scanning works on `List Char`
  (all relevant comparisons are on code points below 256, matching Go bytes
  for the ASCII header values involved).
* `http.Header` is an association list from canonical MIME keys to value
  lists; `Set`/`Add`/`Del`/`Get` canonicalize their key argument exactly as
  `net/textproto` does (`canonicalKey` below).
* `time.Time` is a `Nat` counting nanoseconds; `0` is the zero time
  (`IsZero`), `Truncate(time.Second)` is `truncSec`.  A conditional request
  date header is a `DateHeader`: empty string, a string `http.ParseTime`
  rejects, or a string parsing to a whole-second timestamp.
* The object store (`storageClient`/`bucketHandle`/`objectHandle` chain) is
  flattened into a `Store` of two functions: fetching attributes for a
  bucket/key/optional-generation handle, and opening a reader for such a
  handle.  Errors are the `GoError` sum covering the cases `handleError`
  distinguishes.
* `http.Response` keeps status code, proto, header, body, content length and
  close flag (the human-readable `Status` line is omitted; no claim reads it).
* The token-list loops of `checkIfMatch`/`checkIfNoneMatch` consume at least
  one character of the header value per iteration, so they are written with
  a fuel argument initialised to `length + 1`; `ifMatchLoop_fuel_congr` and
  `ifNoneMatchLoop_fuel_congr` prove the fuel never matters from that value
  on, so the fuel-0 fallback (the Go loop-exit result) is unreachable.
-/

namespace GS

/-- A canonical-keyed header map, as `net/http.Header`. -/
abbrev Header : Type := List (String × List String)

/-- Token characters allowed in a MIME header key (Go `validHeaderFieldByte`). -/
def validHeaderFieldChar (c : Char) : Bool :=
  ('0' ≤ c && c ≤ '9') || ('a' ≤ c && c ≤ 'z') || ('A' ≤ c && c ≤ 'Z') ||
  c == '!' || c == '#' || c == '$' || c == '%' || c == '&' || c == '\'' ||
  c == '*' || c == '+' || c == '-' || c == '.' || c == '^' || c == '_' ||
  c == '`' || c == '|' || c == '~'

/-- Case-canonicalisation pass of `textproto.CanonicalMIMEHeaderKey`:
uppercase after a start-of-key or hyphen, lowercase elsewhere. -/
def canonList : Bool → List Char → List Char
  | _, [] => []
  | upper, c :: cs =>
    let c2 : Char :=
      if upper ∧ 'a' ≤ c ∧ c ≤ 'z' then Char.ofNat (c.toNat - 32)
      else if ¬ upper ∧ 'A' ≤ c ∧ c ≤ 'Z' then Char.ofNat (c.toNat + 32)
      else c
    c2 :: canonList (c2 = '-') cs

/-- Go `textproto.CanonicalMIMEHeaderKey`: keys with a non-token byte are
returned unchanged, otherwise case-canonicalised. -/
def canonicalKey (s : String) : String :=
  if s.toList.all validHeaderFieldChar then String.mk (canonList true s.toList)
  else s

/-- Raw lookup of a stored (already canonical) key. -/
def Header.lookupRaw : Header → String → Option (List String)
  | [], _ => none
  | (k, vs) :: rest, key =>
    if k = key then some vs else Header.lookupRaw rest key

def Header.setRaw : Header → String → String → Header
  | [], key, v => [(key, [v])]
  | (k, vs) :: rest, key, v =>
    if k = key then (k, [v]) :: rest else (k, vs) :: Header.setRaw rest key v

def Header.addRaw : Header → String → String → Header
  | [], key, v => [(key, [v])]
  | (k, vs) :: rest, key, v =>
    if k = key then (k, vs ++ [v]) :: rest else (k, vs) :: Header.addRaw rest key v

def Header.delRaw : Header → String → Header
  | [], _ => []
  | (k, vs) :: rest, key =>
    if k = key then Header.delRaw rest key else (k, vs) :: Header.delRaw rest key

/-- Go `http.Header.Get`: first value stored under the canonical key, else "". -/
def Header.get (h : Header) (key : String) : String :=
  match Header.lookupRaw h (canonicalKey key) with
  | some (v :: _) => v
  | _ => ""

/-- All values stored under the canonical form of `key`. -/
def Header.values (h : Header) (key : String) : List String :=
  (Header.lookupRaw h (canonicalKey key)).getD []

def Header.set (h : Header) (key v : String) : Header :=
  Header.setRaw h (canonicalKey key) v

def Header.add (h : Header) (key v : String) : Header :=
  Header.addRaw h (canonicalKey key) v

def Header.del (h : Header) (key : String) : Header :=
  Header.delRaw h (canonicalKey key)

/-- Nanoseconds per second; `time.Time` is modelled in nanoseconds. -/
def nsPerSec : Nat := 1000000000

/-- Go `t.Truncate(time.Second)` on a nanosecond timestamp. -/
def truncSec (t : Nat) : Nat := t / nsPerSec * nsPerSec

/-- A conditional request date header as consumed through `http.ParseTime`:
the empty string, a string `ParseTime` rejects, or a string parsing to the
given whole-second timestamp. -/
inductive DateHeader : Type
  | absent
  | malformed
  | date (sec : Nat)
  deriving DecidableEq, Repr

/-- Go `http.ParseTime` on the header value (`none` = parse error).  HTTP dates
carry whole seconds, returned here in nanoseconds. -/
def parseTime : DateHeader → Option Nat
  | DateHeader.date s => some (s * nsPerSec)
  | _ => none

/-- The request fields the transport reads: method, host/URL pieces, and the
four RFC 7232 conditional headers (`Header.Get` of an absent header is "",
so "absent" and "explicitly empty" coincide, as in the Go code). -/
structure Request : Type where
  method : String
  host : String
  urlHost : String
  urlPath : String
  urlFragment : String
  ifMatch : String
  ifNoneMatch : String
  ifModifiedSince : DateHeader
  ifUnmodifiedSince : DateHeader
  deriving DecidableEq, Repr

/-- The `storage.ObjectAttrs` fields read by the transport. -/
structure ObjectAttrs : Type where
  contentType : String
  contentLanguage : String
  cacheControl : String
  contentEncoding : String
  contentDisposition : String
  storageClass : String
  size : Int
  generation : Int
  metageneration : Int
  updated : Nat
  md5 : List Nat
  crc32c : Nat
  metadata : List (String × String)
  deriving DecidableEq, Repr

/-- A bucket/key handle, optionally pinned to a generation
(`client.Bucket(host).Object(path)` and `object.Generation(gen)`). -/
structure ObjectHandle : Type where
  bucket : String
  key : String
  gen : Option Int
  deriving DecidableEq, Repr

/-- Response body: `http.NoBody`, the byte stream opened for a handle, or a
literal string body (`io.NopCloser(strings.NewReader(...))`). -/
inductive HttpBody : Type
  | noBody
  | stream (obj : ObjectHandle)
  | text (s : String)
  deriving DecidableEq, Repr

/-- The `http.Response` fields the transport populates (its `Status` text
line is omitted from the model). -/
structure Response : Type where
  statusCode : Nat
  proto : String
  protoMajor : Nat
  protoMinor : Nat
  header : Header
  body : HttpBody
  contentLength : Int := 0
  close : Bool
  deriving DecidableEq, Repr

/-- Go-side errors the transport distinguishes: the two storage sentinel
errors, a `*googleapi.Error` with status/body/header, the
`gsprotocol: invalid generation` formatting error, and anything else. -/
inductive GoError : Type
  | objectNotExist
  | bucketNotExist
  | apiError (code : Nat) (body : String) (header : Header)
  | invalidGeneration (fragment : String)
  | otherError (msg : String)
  deriving DecidableEq, Repr

/-- The storage client, flattened over the handle chain: attribute fetch and
reader open for a (possibly generation-pinned) handle. -/
structure Store : Type where
  attrs : ObjectHandle → Except GoError ObjectAttrs
  newReader : ObjectHandle → Except GoError Unit

instance {ε α : Type} [DecidableEq ε] [DecidableEq α] : DecidableEq (Except ε α) :=
  fun a b =>
    match a, b with
    | Except.error e, Except.error f =>
      if h : e = f then isTrue (by rw [h]) else isFalse (by intro hc; cases hc; exact h rfl)
    | Except.error _, Except.ok _ => isFalse (by intro hc; cases hc)
    | Except.ok _, Except.error _ => isFalse (by intro hc; cases hc)
    | Except.ok x, Except.ok y =>
      if h : x = y then isTrue (by rw [h]) else isFalse (by intro hc; cases hc; exact h rfl)

/-- Go `condResult` of the precondition checks. -/
inductive CondResult : Type
  | condNone
  | condTrue
  | condFalse
  deriving DecidableEq, Repr

/-- The `textproto.TrimString` whitespace set (ASCII space characters). -/
def isSpaceChar (c : Char) : Bool :=
  c == ' ' || c == '\t' || c == '\n' || c == '\r'

def trimLeft : List Char → List Char
  | [] => []
  | c :: cs => if isSpaceChar c then trimLeft cs else c :: cs

/-- Go `textproto.TrimString`: strip leading and trailing ASCII space. -/
def trimString (s : List Char) : List Char :=
  (trimLeft (trimLeft s).reverse).reverse

/-- Character values allowed inside an ETag (RFC 7232 2.3, as in the Go
`scanETag` switch). -/
def etagCharOk (c : Char) : Bool :=
  c.toNat == 0x21 || (0x23 ≤ c.toNat && c.toNat ≤ 0x7E) || 0x80 ≤ c.toNat

/-- Scan after the opening quote: accumulate allowed characters until the
closing quote; `none` on a disallowed character or missing close. -/
def scanETagLoop (acc : List Char) : List Char → Option (List Char × List Char)
  | [] => none
  | c :: cs =>
    if c = '"' then some (acc.reverse ++ ['"'], cs)
    else if etagCharOk c then scanETagLoop (c :: acc) cs
    else none

/-- Go `scanETag`: returns the syntactically valid ETag at the front of `s`
and the remaining text, or `([], [])`. -/
def scanETag (s0 : List Char) : List Char × List Char :=
  let s := trimString s0
  let start : Nat := if List.take 2 s = ['W', '/'] then 2 else 0
  match List.drop start s with
  | '"' :: body =>
    match scanETagLoop [] body with
    | some (tail, remain) => (List.take start s ++ '"' :: tail, remain)
    | none => ([], [])
  | _ => ([], [])

/-- Go `etagStrongMatch`: byte equality of strong (quoted, non-`W/`) tags. -/
def etagStrongMatch (a b : List Char) : Bool :=
  a == b && !(a == []) && a.head? == some '"'

/-- Go `strings.TrimPrefix(s, "W/")`. -/
def stripWeak (s : List Char) : List Char :=
  if List.take 2 s = ['W', '/'] then List.drop 2 s else s

/-- Go `etagWeakMatch`: equality ignoring a leading `W/` on either side. -/
def etagWeakMatch (a b : List Char) : Bool :=
  stripWeak a == stripWeak b

/-- The token loop of `checkIfMatch`.  Fuel-0 returns the loop-exit result
`condFalse`; each iteration consumes at least one character, so fuel
`length + 1` is never exhausted. -/
def ifMatchLoop (etagHdr : List Char) : Nat → List Char → CondResult
  | 0, _ => CondResult.condFalse
  | fuel + 1, im0 =>
    let im := trimString im0
    if im = [] then CondResult.condFalse
    else
      match im with
      | ',' :: rest => ifMatchLoop etagHdr fuel rest
      | '*' :: _ => CondResult.condTrue
      | _ =>
        match scanETag im with
        | ([], _) => CondResult.condFalse
        | (etag, remain) =>
          if etagStrongMatch etag etagHdr then CondResult.condTrue
          else ifMatchLoop etagHdr fuel remain

def checkIfMatch (req : Request) (header : Header) (_attrs : ObjectAttrs) : CondResult :=
  let im := req.ifMatch
  if im = "" then CondResult.condNone
  else ifMatchLoop (Header.get header "Etag").toList (im.toList.length + 1) im.toList

def checkIfUnmodifiedSince (req : Request) (_header : Header) (attrs : ObjectAttrs) : CondResult :=
  if req.ifUnmodifiedSince = DateHeader.absent ∨ attrs.updated = 0 then
    CondResult.condNone
  else
    match parseTime req.ifUnmodifiedSince with
    | none => CondResult.condNone
    | some t =>
      let modtime := truncSec attrs.updated
      if modtime < t ∨ modtime = t then CondResult.condTrue
      else CondResult.condFalse

/-- The token loop of `checkIfNoneMatch`.  Fuel-0 returns the loop-exit
result `condTrue`; fuel `length + 1` is never exhausted. -/
def ifNoneMatchLoop (etagHdr : List Char) : Nat → List Char → CondResult
  | 0, _ => CondResult.condTrue
  | fuel + 1, inm0 =>
    let inm := trimString inm0
    if inm = [] then CondResult.condTrue
    else
      match inm with
      | ',' :: rest => ifNoneMatchLoop etagHdr fuel rest
      | '*' :: _ => CondResult.condFalse
      | _ =>
        match scanETag inm with
        | ([], _) => CondResult.condTrue
        | (etag, remain) =>
          if etagWeakMatch etag etagHdr then CondResult.condFalse
          else ifNoneMatchLoop etagHdr fuel remain

def checkIfNoneMatch (req : Request) (header : Header) (_attrs : ObjectAttrs) : CondResult :=
  let inm := req.ifNoneMatch
  if inm = "" then CondResult.condNone
  else ifNoneMatchLoop (Header.get header "Etag").toList (inm.toList.length + 1) inm.toList

def checkIfModifiedSince (req : Request) (_header : Header) (attrs : ObjectAttrs) : CondResult :=
  if req.ifModifiedSince = DateHeader.absent ∨ attrs.updated = 0 then
    CondResult.condNone
  else
    match parseTime req.ifModifiedSince with
    | none => CondResult.condNone
    | some t =>
      let modtime := truncSec attrs.updated
      if modtime < t ∨ modtime = t then CondResult.condFalse
      else CondResult.condTrue

/-- The 412 response literal of `checkPreconditions`: the synthesized header
set is passed through untouched. -/
def precondFailedResponse (header : Header) : Response :=
  { statusCode := 412, proto := "HTTP/1.0", protoMajor := 1, protoMinor := 0,
    header := header, body := HttpBody.noBody, contentLength := 0, close := true }

/-- The 304 response of `checkPreconditions`: strip `Content-Type` and
`Content-Length`, and `Last-Modified` too when an `ETag` header remains. -/
def notModifiedResponse (header0 : Header) : Response :=
  let header1 := Header.del header0 "Content-Type"
  let header2 := Header.del header1 "Content-Length"
  let header3 :=
    if Header.get header2 "Etag" ≠ "" then Header.del header2 "Last-Modified"
    else header2
  { statusCode := 304, proto := "HTTP/1.0", protoMajor := 1, protoMinor := 0,
    header := header3, body := HttpBody.noBody, contentLength := 0, close := true }

/-- Go `checkPreconditions`: `none` means the precondition checks pass and
the caller proceeds to a 200 response. -/
def checkPreconditions (req : Request) (header : Header) (attrs : ObjectAttrs) :
    Option Response :=
  let ch0 := checkIfMatch req header attrs
  let ch1 :=
    if ch0 = CondResult.condNone then checkIfUnmodifiedSince req header attrs
    else ch0
  if ch1 = CondResult.condFalse then some (precondFailedResponse header)
  else
    let ch2 := checkIfNoneMatch req header attrs
    if ch2 = CondResult.condFalse ∨
        (ch2 = CondResult.condNone ∧
          checkIfModifiedSince req header attrs = CondResult.condFalse) then
      some (notModifiedResponse header)
    else none

/-- Lowercase hex digit of a value below 16 (`encoding/hex` hextable:
digits at code points 48-57, then letters from 97). -/
def hexDigit (n : Nat) : Char :=
  if n < 10 then Char.ofNat (48 + n) else Char.ofNat (87 + n)

/-- Go `hex.EncodeToString` on a byte list. -/
def hexEncode (bs : List Nat) : String :=
  String.mk (List.flatMap bs (fun b => [hexDigit (b / 16 % 16), hexDigit (b % 16)]))

/-- Standard base64 alphabet character: upper-case letters, lower-case
letters, digits, `+`, `/`. -/
def b64Digit (n : Nat) : Char :=
  if n < 26 then Char.ofNat (65 + n)
  else if n < 52 then Char.ofNat (97 + (n - 26))
  else if n < 62 then Char.ofNat (48 + (n - 52))
  else if n = 62 then '+'
  else '/'

/-- Go `base64.StdEncoding.EncodeToString` on a byte list (with `=` padding). -/
def base64Chars : List Nat → List Char
  | [] => []
  | [a] => [b64Digit (a / 4), b64Digit (a % 4 * 16), '=', '=']
  | [a, b] => [b64Digit (a / 4), b64Digit (a % 4 * 16 + b / 16),
               b64Digit (b % 16 * 4), '=']
  | a :: b :: c :: rest =>
    b64Digit (a / 4) :: b64Digit (a % 4 * 16 + b / 16) ::
    b64Digit (b % 16 * 4 + c / 64) :: b64Digit (c % 64) :: base64Chars rest

def base64Encode (bs : List Nat) : String := String.mk (base64Chars bs)

/-- Go `binary.BigEndian.PutUint32`: the four big-endian bytes of a uint32. -/
def putUint32BE (n : Nat) : List Nat :=
  [n / 16777216 % 256, n / 65536 % 256, n / 256 % 256, n % 256]

/-- Two-digit zero-padded decimal. -/
def pad2 (n : Nat) : String :=
  if n < 10 then "0" ++ toString n else toString n

/-- Four-digit zero-padded decimal year. -/
def pad4 (n : Nat) : String :=
  if n < 10 then "000" ++ toString n
  else if n < 100 then "00" ++ toString n
  else if n < 1000 then "0" ++ toString n
  else toString n

/-- Civil date (year, month, day) from days since 1970-01-01
(days-to-civil algorithm over the 400-year Gregorian era). -/
def civilFromDays (z0 : Nat) : Nat × Nat × Nat :=
  let z := z0 + 719468
  let era := z / 146097
  let doe := z % 146097
  let yoe := (doe - doe / 1460 + doe / 36524 - doe / 146096) / 365
  let doy := doe - (365 * yoe + yoe / 4 - yoe / 100)
  let mp := (5 * doy + 2) / 153
  let d := doy - (153 * mp + 2) / 5 + 1
  let m := if mp < 10 then mp + 3 else mp - 9
  let y := yoe + era * 400 + (if m ≤ 2 then 1 else 0)
  (y, m, d)

def weekdayName (n : Nat) : String :=
  List.getD ["Sun", "Mon", "Tue", "Wed", "Thu", "Fri", "Sat"] n "Sun"

def monthName (n : Nat) : String :=
  List.getD ["Jan", "Feb", "Mar", "Apr", "May", "Jun",
             "Jul", "Aug", "Sep", "Oct", "Nov", "Dec"] (n - 1) "Jan"

/-- Go `t.Format(http.TimeFormat)`: RFC 1123 GMT date of a nanosecond timestamp
("Mon, 02 Jan 2006 15:04:05 GMT"); 1970-01-01 was a Thursday. -/
def formatHTTPTime (t : Nat) : String :=
  let sec := t / nsPerSec
  let days := sec / 86400
  let rem := sec % 86400
  let ymd := civilFromDays days
  weekdayName ((days + 4) % 7) ++ ", " ++ pad2 ymd.2.2 ++ " " ++
    monthName ymd.2.1 ++ " " ++ pad4 ymd.1 ++ " " ++ pad2 (rem / 3600) ++ ":" ++
    pad2 (rem % 3600 / 60) ++ ":" ++ pad2 (rem % 60) ++ " GMT"

/-- Go `makeHeader`: synthesize the HTTP header set from object attributes. -/
def makeHeader (attrs : ObjectAttrs) : Header :=
  let header : Header := []
  let header :=
    if attrs.contentType ≠ "" then Header.set header "Content-Type" attrs.contentType
    else header
  let header :=
    if attrs.contentLanguage ≠ "" then
      Header.set header "Content-Language" attrs.contentLanguage
    else header
  let header :=
    if attrs.cacheControl ≠ "" then Header.set header "Cache-Control" attrs.cacheControl
    else header
  let header :=
    if attrs.size ≠ 0 then Header.set header "Content-Length" (toString attrs.size)
    else header
  let header :=
    if attrs.contentEncoding ≠ "" then
      Header.set header "Content-Encoding" attrs.contentEncoding
    else header
  let header :=
    if attrs.contentDisposition ≠ "" then
      Header.set header "Content-Disposition" attrs.contentDisposition
    else header
  let header :=
    if attrs.updated ≠ 0 then
      Header.set header "Last-Modified" (formatHTTPTime attrs.updated)
    else header
  let header :=
    if attrs.md5 ≠ [] then
      Header.set
        (Header.add header "x-goog-hash" ("md5=" ++ base64Encode attrs.md5))
        "ETag" ("\"" ++ hexEncode attrs.md5 ++ "\"")
    else header
  let header :=
    Header.add header "x-goog-hash" ("crc32c=" ++ base64Encode (putUint32BE attrs.crc32c))
  let header :=
    if attrs.generation ≠ 0 then
      Header.set header "x-goog-generation" (toString attrs.generation)
    else header
  let header :=
    if attrs.metageneration ≠ 0 then
      Header.set header "x-goog-metageneration" (toString attrs.metageneration)
    else header
  let header :=
    List.foldl (fun h kv => Header.set h ("x-goog-meta-" ++ kv.1) kv.2) header
      attrs.metadata
  let header :=
    if attrs.size ≠ 0 then
      Header.set header "x-goog-stored-content-length" (toString attrs.size)
    else header
  let header :=
    if attrs.contentEncoding ≠ "" then
      Header.set header "x-goog-stored-content-encoding" attrs.contentEncoding
    else header
  let header :=
    if attrs.storageClass ≠ "" then
      Header.set header "x-goog-storage-class" attrs.storageClass
    else header
  header

/-- Digits of a base-10 numeral; `none` when empty or containing a
non-digit character. -/
def digitsToNat : List Char → Option Nat
  | [] => none
  | cs =>
    List.foldl
      (fun acc c =>
        Option.bind acc (fun n =>
          if '0' ≤ c ∧ c ≤ '9' then some (n * 10 + (c.toNat - 48)) else none))
      (some 0) cs

/-- Largest int64. -/
def int64Max : Nat := 9223372036854775807

/-- Go `strconv.ParseInt(s, 10, 64)`: optional sign, decimal digits, 64-bit
range check; `none` on any error. -/
def parseInt64 (s : String) : Option Int :=
  match s.toList with
  | '+' :: rest =>
    Option.bind (digitsToNat rest) (fun n =>
      if n ≤ int64Max then some (Int.ofNat n) else none)
  | '-' :: rest =>
    Option.bind (digitsToNat rest) (fun n =>
      if n ≤ int64Max + 1 then some (-(Int.ofNat n)) else none)
  | cs =>
    Option.bind (digitsToNat cs) (fun n =>
      if n ≤ int64Max then some (Int.ofNat n) else none)

/-- The host the transport resolves: `req.Host`, falling back to the URL
host when empty. -/
def requestHost (req : Request) : String :=
  if req.host = "" then req.urlHost else req.host

/-- Go `strings.TrimPrefix(req.URL.Path, "/")`. -/
def requestPath (req : Request) : String :=
  if req.urlPath.toList.take 1 = ['/'] then String.mk (req.urlPath.toList.drop 1)
  else req.urlPath

/-- Go `objectAttrs`: resolve the request to a generation-pinned handle plus
its attributes.  A non-empty fragment is parsed as the generation; an empty
fragment fetches the latest attributes and re-pins the handle to the
generation they report. -/
def objectAttrs (store : Store) (req : Request) :
    Except GoError (ObjectHandle × ObjectAttrs) :=
  let object : ObjectHandle :=
    { bucket := requestHost req, key := requestPath req, gen := none }
  if req.urlFragment ≠ "" then
    match parseInt64 req.urlFragment with
    | none => Except.error (GoError.invalidGeneration req.urlFragment)
    | some gen =>
      let object := { object with gen := some gen }
      match store.attrs object with
      | Except.error e => Except.error e
      | Except.ok attrs => Except.ok (object, attrs)
  else
    match store.attrs object with
    | Except.error e => Except.error e
    | Except.ok attrs => Except.ok ({ object with gen := some attrs.generation }, attrs)

/-- Go `handleError`: storage not-exist sentinels become a 404, a
`*googleapi.Error` is passed through with its code, body and header, and
anything else is returned to the caller as a hard error. -/
def handleError (err : GoError) : Except GoError Response :=
  match err with
  | GoError.objectNotExist =>
    Except.ok { statusCode := 404, proto := "HTTP/1.0", protoMajor := 1,
                protoMinor := 0, header := [], body := HttpBody.noBody,
                contentLength := 0, close := true }
  | GoError.bucketNotExist =>
    Except.ok { statusCode := 404, proto := "HTTP/1.0", protoMajor := 1,
                protoMinor := 0, header := [], body := HttpBody.noBody,
                contentLength := 0, close := true }
  | GoError.apiError code body header =>
    Except.ok { statusCode := code, proto := "HTTP/1.0", protoMajor := 1,
                protoMinor := 0, header := header, body := HttpBody.text body,
                contentLength := 0, close := true }
  | e => Except.error e

/-- Go `getObject`. -/
def getObject (store : Store) (req : Request) : Except GoError Response :=
  match objectAttrs store req with
  | Except.error e => handleError e
  | Except.ok (object, attrs) =>
    let header := makeHeader attrs
    match checkPreconditions req header attrs with
    | some resp => Except.ok resp
    | none =>
      match store.newReader object with
      | Except.error e => Except.error e
      | Except.ok _ =>
        Except.ok { statusCode := 200, proto := "HTTP/1.0", protoMajor := 1,
                    protoMinor := 0, header := header,
                    body := HttpBody.stream object,
                    contentLength := attrs.size, close := true }

/-- Go `headObject`: like `getObject` but no reader is opened and the body
is `http.NoBody` (the Go literal leaves `ContentLength` at zero). -/
def headObject (store : Store) (req : Request) : Except GoError Response :=
  match objectAttrs store req with
  | Except.error e => handleError e
  | Except.ok (_, attrs) =>
    let header := makeHeader attrs
    match checkPreconditions req header attrs with
    | some resp => Except.ok resp
    | none =>
      Except.ok { statusCode := 200, proto := "HTTP/1.0", protoMajor := 1,
                  protoMinor := 0, header := header, body := HttpBody.noBody,
                  contentLength := 0, close := true }

/-- Go `RoundTrip`: dispatch on the method; non-GET/HEAD methods get an
immediate 405 without touching the store. -/
def RoundTrip (store : Store) (req : Request) : Except GoError Response :=
  if req.method = "GET" then getObject store req
  else if req.method = "HEAD" then headObject store req
  else
    Except.ok { statusCode := 405, proto := "HTTP/1.0", protoMajor := 1,
                protoMinor := 0, header := [], body := HttpBody.noBody,
                contentLength := 0, close := true }

/-! ### Lemmas about the header map operations -/

theorem lookupRaw_setRaw_self (h : Header) (key v : String) :
    Header.lookupRaw (Header.setRaw h key v) key = some [v] := by
  induction h with
  | nil => simp [Header.setRaw, Header.lookupRaw]
  | cons hd tl ih =>
    obtain ⟨a, vs⟩ := hd
    by_cases hk : a = key <;> simp [Header.setRaw, Header.lookupRaw, hk, ih]

theorem lookupRaw_setRaw_ne (h : Header) (key v t : String) (hne : key ≠ t) :
    Header.lookupRaw (Header.setRaw h key v) t = Header.lookupRaw h t := by
  induction h with
  | nil => simp [Header.setRaw, Header.lookupRaw, hne]
  | cons hd tl ih =>
    obtain ⟨a, vs⟩ := hd
    by_cases hk : a = key
    · subst hk; simp [Header.setRaw, Header.lookupRaw, hne]
    · simp [Header.setRaw, Header.lookupRaw, hk, ih]

theorem lookupRaw_addRaw_self (h : Header) (key v : String) :
    Header.lookupRaw (Header.addRaw h key v) key =
      some ((Header.lookupRaw h key).getD [] ++ [v]) := by
  induction h with
  | nil => simp [Header.addRaw, Header.lookupRaw]
  | cons hd tl ih =>
    obtain ⟨a, vs⟩ := hd
    by_cases hk : a = key <;> simp [Header.addRaw, Header.lookupRaw, hk, ih]

theorem lookupRaw_addRaw_ne (h : Header) (key v t : String) (hne : key ≠ t) :
    Header.lookupRaw (Header.addRaw h key v) t = Header.lookupRaw h t := by
  induction h with
  | nil => simp [Header.addRaw, Header.lookupRaw, hne]
  | cons hd tl ih =>
    obtain ⟨a, vs⟩ := hd
    by_cases hk : a = key
    · subst hk; simp [Header.addRaw, Header.lookupRaw, hne]
    · simp [Header.addRaw, Header.lookupRaw, hk, ih]

theorem lookupRaw_delRaw_self (h : Header) (key : String) :
    Header.lookupRaw (Header.delRaw h key) key = none := by
  induction h with
  | nil => simp [Header.delRaw, Header.lookupRaw]
  | cons hd tl ih =>
    obtain ⟨a, vs⟩ := hd
    by_cases hk : a = key <;> simp [Header.delRaw, Header.lookupRaw, hk, ih]

theorem lookupRaw_delRaw_ne (h : Header) (key t : String) (hne : key ≠ t) :
    Header.lookupRaw (Header.delRaw h key) t = Header.lookupRaw h t := by
  induction h with
  | nil => simp [Header.delRaw, Header.lookupRaw]
  | cons hd tl ih =>
    obtain ⟨a, vs⟩ := hd
    by_cases hk : a = key
    · subst hk; simp [Header.delRaw, Header.lookupRaw, hne, ih]
    · simp [Header.delRaw, Header.lookupRaw, hk, ih]

/-- Rewriting a lookup through a conditionally-set header with a different
canonical key. -/
theorem lookupRaw_ite_set (c : Prop) [Decidable c] (h : Header) (k v t : String)
    (hne : canonicalKey k ≠ t) :
    Header.lookupRaw (if c then Header.set h k v else h) t = Header.lookupRaw h t := by
  by_cases hc : c
  · simp only [if_pos hc, Header.set]; exact lookupRaw_setRaw_ne _ _ _ _ hne
  · simp [hc]

/-! ### Canonicalisation facts for the custom-metadata keys -/

theorem canonList_length (s : List Char) : ∀ u : Bool, (canonList u s).length = s.length := by
  induction s with
  | nil => intro u; simp [canonList]
  | cons c cs ih => intro u; simp [canonList, ih]

theorem canonicalKey_data_length (s : String) :
    (canonicalKey s).toList.length = s.toList.length := by
  unfold canonicalKey
  split
  · show (String.mk (canonList true s.toList)).data.length = _
    simp [canonList_length]
  · rfl

theorem canonicalKey_meta_head (k : String) :
    ((canonicalKey ("x-goog-meta-" ++ k)).toList.head? = some 'X') ∨
    ((canonicalKey ("x-goog-meta-" ++ k)).toList.head? = some 'x') := by
  unfold canonicalKey
  split
  · left
    show (String.mk (canonList true ("x-goog-meta-" ++ k).data)).data.head? = some 'X'
    have hd : ("x-goog-meta-" ++ k).data = 'x' :: ("-goog-meta-".data ++ k.data) := by
      rw [String.data_append]; rfl
    rw [hd]
    simp [canonList]
  · right
    show ("x-goog-meta-" ++ k).data.head? = some 'x'
    have : ("x-goog-meta-" ++ k).data = "x-goog-meta-".data ++ k.data := String.data_append ..
    simp [this]

theorem canonicalKey_meta_ne_of_head (k t : String)
    (h1 : t.toList.head? ≠ some 'X') (h2 : t.toList.head? ≠ some 'x') :
    canonicalKey ("x-goog-meta-" ++ k) ≠ t := by
  intro he
  rcases canonicalKey_meta_head k with hh | hh <;> rw [he] at hh
  · exact h1 hh
  · exact h2 hh

theorem canonicalKey_meta_ne_hash (k : String) :
    canonicalKey ("x-goog-meta-" ++ k) ≠ "X-Goog-Hash" := by
  intro he
  have hlen := canonicalKey_data_length ("x-goog-meta-" ++ k)
  rw [he] at hlen
  have h12 : ("x-goog-meta-" ++ k).toList.length = 12 + k.toList.length := by
    show ("x-goog-meta-" ++ k).data.length = 12 + k.data.length
    rw [String.data_append, List.length_append]
    have h0 : ("x-goog-meta-".data).length = 12 := by decide
    omega
  rw [h12] at hlen
  have h11 : ("X-Goog-Hash" : String).toList.length = 11 := by decide
  rw [h11] at hlen
  omega

/-- The custom-metadata `foldl` in `makeHeader` never touches a key whose
canonical form no `x-goog-meta-` key can take. -/
theorem lookupRaw_foldl_meta (m : List (String × String)) (h : Header) (t : String)
    (ht : ∀ k : String, canonicalKey ("x-goog-meta-" ++ k) ≠ t) :
    Header.lookupRaw
      (List.foldl (fun h kv => Header.set h ("x-goog-meta-" ++ kv.1) kv.2) h m) t =
      Header.lookupRaw h t := by
  induction m generalizing h with
  | nil => rfl
  | cons kv tl ih =>
    rw [List.foldl_cons, ih]
    exact lookupRaw_setRaw_ne _ _ _ _ (ht kv.1)

/-! ### What `makeHeader` stores under the hash, ETag and length keys -/

theorem makeHeader_hash_values (a : ObjectAttrs) :
    Header.lookupRaw (makeHeader a) "X-Goog-Hash" =
      some ((if a.md5 = [] then ([] : List String) else ["md5=" ++ base64Encode a.md5]) ++
        ["crc32c=" ++ base64Encode (putUint32BE a.crc32c)]) := by
  have hck : canonicalKey "x-goog-hash" = "X-Goog-Hash" := by decide
  simp only [makeHeader]
  rw [lookupRaw_ite_set _ _ _ _ _ (by decide)]
  rw [lookupRaw_ite_set _ _ _ _ _ (by decide)]
  rw [lookupRaw_ite_set _ _ _ _ _ (by decide)]
  rw [lookupRaw_foldl_meta _ _ _ canonicalKey_meta_ne_hash]
  rw [lookupRaw_ite_set _ _ _ _ _ (by decide)]
  rw [lookupRaw_ite_set _ _ _ _ _ (by decide)]
  rw [Header.add, hck, lookupRaw_addRaw_self]
  by_cases hm : a.md5 = []
  · rw [if_neg (by simp [hm])]
    rw [lookupRaw_ite_set _ _ _ _ _ (by decide)]
    rw [lookupRaw_ite_set _ _ _ _ _ (by decide)]
    rw [lookupRaw_ite_set _ _ _ _ _ (by decide)]
    rw [lookupRaw_ite_set _ _ _ _ _ (by decide)]
    rw [lookupRaw_ite_set _ _ _ _ _ (by decide)]
    rw [lookupRaw_ite_set _ _ _ _ _ (by decide)]
    rw [lookupRaw_ite_set _ _ _ _ _ (by decide)]
    simp [hm, Header.lookupRaw]
  · rw [if_pos hm]
    rw [Header.set, show canonicalKey "ETag" = "Etag" from by decide]
    rw [lookupRaw_setRaw_ne _ _ _ _ (by decide)]
    rw [Header.add, hck, lookupRaw_addRaw_self]
    rw [lookupRaw_ite_set _ _ _ _ _ (by decide)]
    rw [lookupRaw_ite_set _ _ _ _ _ (by decide)]
    rw [lookupRaw_ite_set _ _ _ _ _ (by decide)]
    rw [lookupRaw_ite_set _ _ _ _ _ (by decide)]
    rw [lookupRaw_ite_set _ _ _ _ _ (by decide)]
    rw [lookupRaw_ite_set _ _ _ _ _ (by decide)]
    rw [lookupRaw_ite_set _ _ _ _ _ (by decide)]
    simp [hm, Header.lookupRaw]

theorem canonicalKey_meta_ne_etag (k : String) :
    canonicalKey ("x-goog-meta-" ++ k) ≠ "Etag" :=
  canonicalKey_meta_ne_of_head k "Etag" (by decide) (by decide)

theorem makeHeader_etag_some (a : ObjectAttrs) (hm : a.md5 ≠ []) :
    Header.lookupRaw (makeHeader a) "Etag" =
      some ["\"" ++ hexEncode a.md5 ++ "\""] := by
  simp only [makeHeader]
  rw [lookupRaw_ite_set _ _ _ _ _ (by decide)]
  rw [lookupRaw_ite_set _ _ _ _ _ (by decide)]
  rw [lookupRaw_ite_set _ _ _ _ _ (by decide)]
  rw [lookupRaw_foldl_meta _ _ _ canonicalKey_meta_ne_etag]
  rw [lookupRaw_ite_set _ _ _ _ _ (by decide)]
  rw [lookupRaw_ite_set _ _ _ _ _ (by decide)]
  rw [Header.add, show canonicalKey "x-goog-hash" = "X-Goog-Hash" from by decide]
  rw [lookupRaw_addRaw_ne _ _ _ _ (by decide)]
  rw [if_pos hm]
  rw [Header.set, show canonicalKey "ETag" = "Etag" from by decide]
  rw [lookupRaw_setRaw_self]

theorem makeHeader_etag_none (a : ObjectAttrs) (hm : a.md5 = []) :
    Header.lookupRaw (makeHeader a) "Etag" = none := by
  simp only [makeHeader]
  rw [lookupRaw_ite_set _ _ _ _ _ (by decide)]
  rw [lookupRaw_ite_set _ _ _ _ _ (by decide)]
  rw [lookupRaw_ite_set _ _ _ _ _ (by decide)]
  rw [lookupRaw_foldl_meta _ _ _ canonicalKey_meta_ne_etag]
  rw [lookupRaw_ite_set _ _ _ _ _ (by decide)]
  rw [lookupRaw_ite_set _ _ _ _ _ (by decide)]
  rw [Header.add, show canonicalKey "x-goog-hash" = "X-Goog-Hash" from by decide]
  rw [lookupRaw_addRaw_ne _ _ _ _ (by decide)]
  rw [if_neg (by simp [hm])]
  rw [lookupRaw_ite_set _ _ _ _ _ (by decide)]
  rw [lookupRaw_ite_set _ _ _ _ _ (by decide)]
  rw [lookupRaw_ite_set _ _ _ _ _ (by decide)]
  rw [lookupRaw_ite_set _ _ _ _ _ (by decide)]
  rw [lookupRaw_ite_set _ _ _ _ _ (by decide)]
  rw [lookupRaw_ite_set _ _ _ _ _ (by decide)]
  rw [lookupRaw_ite_set _ _ _ _ _ (by decide)]
  rfl

theorem canonicalKey_meta_ne_contentLength (k : String) :
    canonicalKey ("x-goog-meta-" ++ k) ≠ "Content-Length" :=
  canonicalKey_meta_ne_of_head k "Content-Length" (by decide) (by decide)

theorem makeHeader_contentLength (a : ObjectAttrs) :
    Header.lookupRaw (makeHeader a) "Content-Length" =
      if a.size = 0 then none else some [toString a.size] := by
  simp only [makeHeader]
  rw [lookupRaw_ite_set _ _ _ _ _ (by decide)]
  rw [lookupRaw_ite_set _ _ _ _ _ (by decide)]
  rw [lookupRaw_ite_set _ _ _ _ _ (by decide)]
  rw [lookupRaw_foldl_meta _ _ _ canonicalKey_meta_ne_contentLength]
  rw [lookupRaw_ite_set _ _ _ _ _ (by decide)]
  rw [lookupRaw_ite_set _ _ _ _ _ (by decide)]
  rw [Header.add, show canonicalKey "x-goog-hash" = "X-Goog-Hash" from by decide]
  rw [lookupRaw_addRaw_ne _ _ _ _ (by decide)]
  have hbody : ∀ h : Header,
      Header.lookupRaw
        (if a.md5 ≠ [] then
          Header.set (Header.add h "x-goog-hash" ("md5=" ++ base64Encode a.md5))
            "ETag" ("\"" ++ hexEncode a.md5 ++ "\"")
        else h) "Content-Length" = Header.lookupRaw h "Content-Length" := by
    intro h
    by_cases hm : a.md5 = []
    · rw [if_neg (by simp [hm])]
    · rw [if_pos hm]
      rw [Header.set, show canonicalKey "ETag" = "Etag" from by decide]
      rw [lookupRaw_setRaw_ne _ _ _ _ (by decide)]
      rw [Header.add, show canonicalKey "x-goog-hash" = "X-Goog-Hash" from by decide]
      rw [lookupRaw_addRaw_ne _ _ _ _ (by decide)]
  rw [hbody]
  rw [lookupRaw_ite_set _ _ _ _ _ (by decide)]
  rw [lookupRaw_ite_set _ _ _ _ _ (by decide)]
  rw [lookupRaw_ite_set _ _ _ _ _ (by decide)]
  by_cases hs : a.size = 0
  · rw [if_neg (by simp [hs]), if_pos hs]
    rw [lookupRaw_ite_set _ _ _ _ _ (by decide)]
    rw [lookupRaw_ite_set _ _ _ _ _ (by decide)]
    rw [lookupRaw_ite_set _ _ _ _ _ (by decide)]
    rfl
  · rw [if_pos hs, if_neg hs]
    rw [Header.set, show canonicalKey "Content-Length" = "Content-Length" from by decide]
    rw [lookupRaw_setRaw_self]

/-! ### The match loops decide; they never answer `condNone` -/

theorem ifMatchLoop_ne_condNone (e : List Char) :
    ∀ (f : Nat) (im : List Char), ifMatchLoop e f im ≠ CondResult.condNone := by
  intro f
  induction f with
  | zero => intro im; simp [ifMatchLoop]
  | succ n ih =>
    intro im
    simp only [ifMatchLoop]
    split
    · simp
    · split
      · exact ih _
      · simp
      · split
        · simp
        · split
          · simp
          · exact ih _

theorem ifNoneMatchLoop_ne_condNone (e : List Char) :
    ∀ (f : Nat) (inm : List Char), ifNoneMatchLoop e f inm ≠ CondResult.condNone := by
  intro f
  induction f with
  | zero => intro inm; simp [ifNoneMatchLoop]
  | succ n ih =>
    intro inm
    simp only [ifNoneMatchLoop]
    split
    · simp
    · split
      · exact ih _
      · simp
      · split
        · simp
        · split
          · simp
          · exact ih _

theorem checkIfMatch_ne_condNone (req : Request) (header : Header) (attrs : ObjectAttrs)
    (h : req.ifMatch ≠ "") : checkIfMatch req header attrs ≠ CondResult.condNone := by
  simp only [checkIfMatch, if_neg h]
  exact ifMatchLoop_ne_condNone _ _ _

theorem checkIfNoneMatch_ne_condNone (req : Request) (header : Header) (attrs : ObjectAttrs)
    (h : req.ifNoneMatch ≠ "") : checkIfNoneMatch req header attrs ≠ CondResult.condNone := by
  simp only [checkIfNoneMatch, if_neg h]
  exact ifNoneMatchLoop_ne_condNone _ _ _

/-! ### Each check reads only its own conditional header -/

theorem checkIfMatch_update_ius (req : Request) (d : DateHeader) (header : Header)
    (attrs : ObjectAttrs) :
    checkIfMatch { req with ifUnmodifiedSince := d } header attrs =
      checkIfMatch req header attrs := rfl

theorem checkIfMatch_update_ims (req : Request) (d : DateHeader) (header : Header)
    (attrs : ObjectAttrs) :
    checkIfMatch { req with ifModifiedSince := d } header attrs =
      checkIfMatch req header attrs := rfl

theorem checkIfNoneMatch_update_ius (req : Request) (d : DateHeader) (header : Header)
    (attrs : ObjectAttrs) :
    checkIfNoneMatch { req with ifUnmodifiedSince := d } header attrs =
      checkIfNoneMatch req header attrs := rfl

theorem checkIfNoneMatch_update_ims (req : Request) (d : DateHeader) (header : Header)
    (attrs : ObjectAttrs) :
    checkIfNoneMatch { req with ifModifiedSince := d } header attrs =
      checkIfNoneMatch req header attrs := rfl

theorem checkIfUnmodifiedSince_update_ims (req : Request) (d : DateHeader) (header : Header)
    (attrs : ObjectAttrs) :
    checkIfUnmodifiedSince { req with ifModifiedSince := d } header attrs =
      checkIfUnmodifiedSince req header attrs := rfl

theorem checkIfModifiedSince_update_ius (req : Request) (d : DateHeader) (header : Header)
    (attrs : ObjectAttrs) :
    checkIfModifiedSince { req with ifUnmodifiedSince := d } header attrs =
      checkIfModifiedSince req header attrs := rfl

/-! ### The two stages of `checkPreconditions` -/

/-- The `If-Match`-then-`If-Unmodified-Since` stage (the `ch` value before
the 412 test in Go `checkPreconditions`). -/
def firstStage (req : Request) (header : Header) (attrs : ObjectAttrs) : CondResult :=
  let ch0 := checkIfMatch req header attrs
  if ch0 = CondResult.condNone then checkIfUnmodifiedSince req header attrs else ch0

theorem checkPreconditions_eq (req : Request) (header : Header) (attrs : ObjectAttrs) :
    checkPreconditions req header attrs =
      if firstStage req header attrs = CondResult.condFalse then
        some (precondFailedResponse header)
      else if checkIfNoneMatch req header attrs = CondResult.condFalse ∨
          (checkIfNoneMatch req header attrs = CondResult.condNone ∧
            checkIfModifiedSince req header attrs = CondResult.condFalse) then
        some (notModifiedResponse header)
      else none := rfl

theorem checkPreconditions_some_shape (req : Request) (header : Header)
    (attrs : ObjectAttrs) (r : Response)
    (h : checkPreconditions req header attrs = some r) :
    r.proto = "HTTP/1.0" ∧ r.protoMajor = 1 ∧ r.protoMinor = 0 ∧
      r.close = true ∧ r.body = HttpBody.noBody := by
  rw [checkPreconditions_eq] at h
  split at h
  · cases h; exact ⟨rfl, rfl, rfl, rfl, rfl⟩
  · split at h
    · cases h; exact ⟨rfl, rfl, rfl, rfl, rfl⟩
    · cases h

theorem handleError_ok_shape (e : GoError) (r : Response)
    (h : handleError e = Except.ok r) :
    r.proto = "HTTP/1.0" ∧ r.protoMajor = 1 ∧ r.protoMinor = 0 ∧ r.close = true := by
  cases e <;> simp [handleError] at h <;> subst h <;> exact ⟨rfl, rfl, rfl, rfl⟩

theorem getObject_ok_shape (store : Store) (req : Request) (r : Response)
    (h : getObject store req = Except.ok r) :
    r.proto = "HTTP/1.0" ∧ r.protoMajor = 1 ∧ r.protoMinor = 0 ∧ r.close = true := by
  unfold getObject at h
  cases ha : objectAttrs store req with
  | error e =>
    rw [ha] at h
    exact handleError_ok_shape e r h
  | ok p =>
    rw [ha] at h
    obtain ⟨object, attrs⟩ := p
    cases hc : checkPreconditions req (makeHeader attrs) attrs with
    | some resp =>
      simp only [hc] at h
      cases h
      obtain ⟨h1, h2, h3, h4, _⟩ := checkPreconditions_some_shape _ _ _ _ hc
      exact ⟨h1, h2, h3, h4⟩
    | none =>
      simp only [hc] at h
      cases hr : store.newReader object with
      | error e => rw [hr] at h; cases h
      | ok u => rw [hr] at h; cases h; exact ⟨rfl, rfl, rfl, rfl⟩

theorem headObject_ok_shape (store : Store) (req : Request) (r : Response)
    (h : headObject store req = Except.ok r) :
    r.proto = "HTTP/1.0" ∧ r.protoMajor = 1 ∧ r.protoMinor = 0 ∧ r.close = true := by
  unfold headObject at h
  cases ha : objectAttrs store req with
  | error e =>
    rw [ha] at h
    exact handleError_ok_shape e r h
  | ok p =>
    rw [ha] at h
    obtain ⟨object, attrs⟩ := p
    cases hc : checkPreconditions req (makeHeader attrs) attrs with
    | some resp =>
      simp only [hc] at h
      cases h
      obtain ⟨h1, h2, h3, h4, _⟩ := checkPreconditions_some_shape _ _ _ _ hc
      exact ⟨h1, h2, h3, h4⟩
    | none =>
      simp only [hc] at h
      cases h
      exact ⟨rfl, rfl, rfl, rfl⟩

/-! ### The loops consume input: fuel `length + 1` is as good as any more -/

theorem trimLeft_length_le (s : List Char) : (trimLeft s).length ≤ s.length := by
  induction s with
  | nil => simp [trimLeft]
  | cons c cs ih =>
    by_cases h : isSpaceChar c
    · simp [trimLeft, h]; omega
    · simp [trimLeft, h]

theorem trimString_length_le (s : List Char) : (trimString s).length ≤ s.length := by
  have h1 := trimLeft_length_le (trimLeft s).reverse
  have h2 := trimLeft_length_le s
  simp only [trimString, List.length_reverse] at *
  omega

theorem scanETagLoop_remain_lt (body : List Char) :
    ∀ (acc tail remain : List Char), scanETagLoop acc body = some (tail, remain) →
      remain.length < body.length := by
  induction body with
  | nil => intro acc tail remain h; simp [scanETagLoop] at h
  | cons c cs ih =>
    intro acc tail remain h
    simp only [scanETagLoop] at h
    split at h
    · cases h; simp
    · split at h
      · have := ih _ _ _ h
        simp
        omega
      · cases h

theorem scanETag_remain_lt (s etag remain : List Char)
    (h : scanETag s = (etag, remain)) (hne : etag ≠ []) :
    remain.length < s.length := by
  have htrim := trimString_length_le s
  simp only [scanETag] at h
  split at h
  · next body heq =>
    split at h
    · next tail remain2 hloop =>
      cases h
      have hlt := scanETagLoop_remain_lt body _ _ _ hloop
      have hdl := congrArg List.length heq
      rw [List.length_drop] at hdl
      simp at hdl
      omega
    · cases h; exact absurd rfl hne
  · cases h; exact absurd rfl hne

theorem ifMatchLoop_fuel_congr (e : List Char) :
    ∀ (f g : Nat) (im : List Char), im.length < f → im.length < g →
      ifMatchLoop e f im = ifMatchLoop e g im := by
  intro f
  induction f with
  | zero => intro g im hf hg; omega
  | succ n ih =>
    intro g im hf hg
    cases g with
    | zero => omega
    | succ m =>
      have htrim := trimString_length_le im
      simp only [ifMatchLoop]
      split
      · rfl
      · next hne0 =>
        split
        · next rest heq =>
          have hlen := congrArg List.length heq
          simp at hlen
          exact ih m rest (by omega) (by omega)
        · rfl
        · next x h1 h2 =>
          split
          · rfl
          · next p etag remain hne heq =>
            split
            · rfl
            · have hrem := scanETag_remain_lt (trimString im) etag remain heq hne
              exact ih m remain (by omega) (by omega)

theorem ifNoneMatchLoop_fuel_congr (e : List Char) :
    ∀ (f g : Nat) (inm : List Char), inm.length < f → inm.length < g →
      ifNoneMatchLoop e f inm = ifNoneMatchLoop e g inm := by
  intro f
  induction f with
  | zero => intro g inm hf hg; omega
  | succ n ih =>
    intro g inm hf hg
    cases g with
    | zero => omega
    | succ m =>
      have htrim := trimString_length_le inm
      simp only [ifNoneMatchLoop]
      split
      · rfl
      · next hne0 =>
        split
        · next rest heq =>
          have hlen := congrArg List.length heq
          simp at hlen
          exact ih m rest (by omega) (by omega)
        · rfl
        · next x h1 h2 =>
          split
          · rfl
          · next p etag remain hne heq =>
            split
            · rfl
            · have hrem := scanETag_remain_lt (trimString inm) etag remain heq hne
              exact ih m remain (by omega) (by omega)

/-! ### Facts about the 304 header stripping -/

theorem notModifiedResponse_get_etag (header : Header) :
    Header.get (Header.delRaw (Header.delRaw header "Content-Type") "Content-Length")
        "Etag" = Header.get header "Etag" := by
  simp only [Header.get, show canonicalKey "Etag" = "Etag" from by decide]
  rw [lookupRaw_delRaw_ne _ _ _ (by decide), lookupRaw_delRaw_ne _ _ _ (by decide)]

theorem notModifiedResponse_header (header : Header) :
    (notModifiedResponse header).header =
      if Header.get header "Etag" ≠ "" then
        Header.delRaw
          (Header.delRaw (Header.delRaw header "Content-Type") "Content-Length")
          "Last-Modified"
      else Header.delRaw (Header.delRaw header "Content-Type") "Content-Length" := by
  simp only [notModifiedResponse, Header.del,
    show canonicalKey "Content-Type" = "Content-Type" from by decide,
    show canonicalKey "Content-Length" = "Content-Length" from by decide,
    show canonicalKey "Last-Modified" = "Last-Modified" from by decide,
    notModifiedResponse_get_etag]

theorem notModifiedResponse_lookup_other (header : Header) (t : String)
    (h1 : t ≠ "Content-Type") (h2 : t ≠ "Content-Length") (h3 : t ≠ "Last-Modified") :
    Header.lookupRaw (notModifiedResponse header).header t = Header.lookupRaw header t := by
  rw [notModifiedResponse_header]
  by_cases hE : Header.get header "Etag" = ""
  · rw [if_neg (by simp [hE])]
    rw [lookupRaw_delRaw_ne _ _ _ (Ne.symm h2), lookupRaw_delRaw_ne _ _ _ (Ne.symm h1)]
  · rw [if_pos hE]
    rw [lookupRaw_delRaw_ne _ _ _ (Ne.symm h3), lookupRaw_delRaw_ne _ _ _ (Ne.symm h2),
      lookupRaw_delRaw_ne _ _ _ (Ne.symm h1)]

/-- Claim C1: for GET/HEAD requests on an existing object, the precondition
evaluator settles `If-Match` (falling back to `If-Unmodified-Since` only when
`If-Match` is absent/empty) strictly before `If-None-Match` (falling back to
`If-Modified-Since` only when `If-None-Match` is absent/empty); in particular
a present, non-empty `If-None-Match` makes `If-Modified-Since` irrelevant to
the final disposition. -/
theorem C1_evaluation_order (req : Request) (header : Header) (attrs : ObjectAttrs) :
    (req.ifMatch ≠ "" →
      ∀ d d' : DateHeader,
        checkPreconditions { req with ifUnmodifiedSince := d } header attrs =
          checkPreconditions { req with ifUnmodifiedSince := d' } header attrs) ∧
    (firstStage req header attrs = CondResult.condFalse →
      checkPreconditions req header attrs = some (precondFailedResponse header)) ∧
    (req.ifNoneMatch ≠ "" →
      ∀ d d' : DateHeader,
        checkPreconditions { req with ifModifiedSince := d } header attrs =
          checkPreconditions { req with ifModifiedSince := d' } header attrs) := by
  refine ⟨?_, ?_, ?_⟩
  · intro hm d d'
    have h0 := checkIfMatch_ne_condNone req header attrs hm
    have hfs : ∀ d0 : DateHeader,
        firstStage { req with ifUnmodifiedSince := d0 } header attrs =
          checkIfMatch req header attrs := by
      intro d0
      simp only [firstStage, checkIfMatch_update_ius]
      rw [if_neg h0]
    rw [checkPreconditions_eq, checkPreconditions_eq, hfs d, hfs d']
    simp only [checkIfNoneMatch_update_ius, checkIfModifiedSince_update_ius]
  · intro hf
    rw [checkPreconditions_eq, if_pos hf]
  · intro hn d d'
    have h2 := checkIfNoneMatch_ne_condNone req header attrs hn
    have hfs : ∀ d0 : DateHeader,
        firstStage { req with ifModifiedSince := d0 } header attrs =
          firstStage req header attrs := fun _ => rfl
    rw [checkPreconditions_eq, checkPreconditions_eq, hfs d, hfs d']
    simp only [checkIfNoneMatch_update_ims]
    have hd : checkIfNoneMatch req header attrs = CondResult.condTrue ∨
        checkIfNoneMatch req header attrs = CondResult.condFalse := by
      cases hc : checkIfNoneMatch req header attrs
      · exact absurd hc h2
      · exact Or.inl rfl
      · exact Or.inr rfl
    rcases hd with hc | hc <;> simp [hc]

/-- Shared all-zero object attributes for concrete witnesses. -/
def emptyAttrs : ObjectAttrs :=
  { contentType := "", contentLanguage := "", cacheControl := "", contentEncoding := "",
    contentDisposition := "", storageClass := "", size := 0, generation := 0,
    metageneration := 0, updated := 0, md5 := [], crc32c := 0, metadata := [] }

/-- Shared plain GET request for concrete witnesses. -/
def baseRequest : Request :=
  { method := "GET", host := "bucket-name", urlHost := "bucket-name",
    urlPath := "/object-key", urlFragment := "", ifMatch := "", ifNoneMatch := "",
    ifModifiedSince := DateHeader.absent, ifUnmodifiedSince := DateHeader.absent }

theorem C1_evaluation_order_witness :
    (checkPreconditions
        { baseRequest with ifMatch := "\"a\"", ifNoneMatch := "\"b\"",
                           ifUnmodifiedSince := DateHeader.date 5 } [] emptyAttrs =
      checkPreconditions
        { baseRequest with ifMatch := "\"a\"", ifNoneMatch := "\"b\"",
                           ifUnmodifiedSince := DateHeader.malformed } [] emptyAttrs) ∧
    (checkPreconditions { baseRequest with ifMatch := "\"a\"", ifNoneMatch := "\"b\"" }
        [] emptyAttrs = some (precondFailedResponse [])) ∧
    (checkPreconditions
        { baseRequest with ifMatch := "\"a\"", ifNoneMatch := "\"b\"",
                           ifModifiedSince := DateHeader.date 7 } [] emptyAttrs =
      checkPreconditions
        { baseRequest with ifMatch := "\"a\"", ifNoneMatch := "\"b\"",
                           ifModifiedSince := DateHeader.absent } [] emptyAttrs) := by
  refine ⟨?_, ?_, ?_⟩
  · exact (C1_evaluation_order
      { baseRequest with ifMatch := "\"a\"", ifNoneMatch := "\"b\"" } [] emptyAttrs).1
      (by decide) (DateHeader.date 5) DateHeader.malformed
  · exact (C1_evaluation_order
      { baseRequest with ifMatch := "\"a\"", ifNoneMatch := "\"b\"" } [] emptyAttrs).2.1
      (by decide)
  · exact (C1_evaluation_order
      { baseRequest with ifMatch := "\"a\"", ifNoneMatch := "\"b\"" } [] emptyAttrs).2.2
      (by decide) (DateHeader.date 7) DateHeader.absent

/-- Claim C2: date conditionals compare against the modification time
truncated to whole seconds, and equality counts as not-modified:
`If-Modified-Since` equal to the truncated modification time gives 304,
`If-Unmodified-Since` equal lets the request proceed, and
`If-Unmodified-Since` strictly before the truncated modification time gives
412. -/
theorem C2_date_comparison_boundaries :
    (∀ (attrs : ObjectAttrs) (header : Header) (req : Request) (s : Nat),
      attrs.updated ≠ 0 → req.ifMatch = "" → req.ifNoneMatch = "" →
      req.ifUnmodifiedSince = DateHeader.absent →
      req.ifModifiedSince = DateHeader.date s →
      truncSec attrs.updated = s * nsPerSec →
      checkPreconditions req header attrs = some (notModifiedResponse header)) ∧
    (∀ (attrs : ObjectAttrs) (header : Header) (req : Request) (s : Nat),
      attrs.updated ≠ 0 → req.ifMatch = "" → req.ifNoneMatch = "" →
      req.ifModifiedSince = DateHeader.absent →
      req.ifUnmodifiedSince = DateHeader.date s →
      truncSec attrs.updated = s * nsPerSec →
      checkPreconditions req header attrs = none) ∧
    (∀ (attrs : ObjectAttrs) (header : Header) (req : Request) (s : Nat),
      attrs.updated ≠ 0 → req.ifMatch = "" →
      req.ifUnmodifiedSince = DateHeader.date s →
      s * nsPerSec < truncSec attrs.updated →
      checkPreconditions req header attrs = some (precondFailedResponse header)) := by
  refine ⟨?_, ?_, ?_⟩
  · intro attrs header req s hu hm hn hius hims htr
    have h1 : checkIfMatch req header attrs = CondResult.condNone := by
      simp [checkIfMatch, hm]
    have h2 : checkIfUnmodifiedSince req header attrs = CondResult.condNone := by
      simp [checkIfUnmodifiedSince, hius]
    have h3 : checkIfNoneMatch req header attrs = CondResult.condNone := by
      simp [checkIfNoneMatch, hn]
    have h4 : checkIfModifiedSince req header attrs = CondResult.condFalse := by
      simp [checkIfModifiedSince, hims, hu, parseTime, htr]
    rw [checkPreconditions_eq]
    rw [if_neg (by simp [firstStage, h1, h2])]
    rw [if_pos (Or.inr ⟨h3, h4⟩)]
  · intro attrs header req s hu hm hn hims hius htr
    have h1 : checkIfMatch req header attrs = CondResult.condNone := by
      simp [checkIfMatch, hm]
    have h2 : checkIfUnmodifiedSince req header attrs = CondResult.condTrue := by
      simp [checkIfUnmodifiedSince, hius, hu, parseTime, htr]
    have h3 : checkIfNoneMatch req header attrs = CondResult.condNone := by
      simp [checkIfNoneMatch, hn]
    have h4 : checkIfModifiedSince req header attrs = CondResult.condNone := by
      simp [checkIfModifiedSince, hims]
    rw [checkPreconditions_eq]
    rw [if_neg (by simp [firstStage, h1, h2])]
    rw [if_neg (by simp [h3, h4])]
  · intro attrs header req s hu hm hius hlt
    have h1 : checkIfMatch req header attrs = CondResult.condNone := by
      simp [checkIfMatch, hm]
    have h2 : checkIfUnmodifiedSince req header attrs = CondResult.condFalse := by
      simp only [checkIfUnmodifiedSince, hius, parseTime]
      rw [if_neg (by simp [hu])]
      rw [if_neg (by omega)]
    rw [checkPreconditions_eq]
    rw [if_pos (by simp [firstStage, h1, h2])]

theorem C2_date_comparison_boundaries_witness :
    (checkPreconditions
        { baseRequest with ifModifiedSince := DateHeader.date 1 } []
        { emptyAttrs with updated := 1500000000 } = some (notModifiedResponse [])) ∧
    (checkPreconditions
        { baseRequest with ifUnmodifiedSince := DateHeader.date 1 } []
        { emptyAttrs with updated := 1500000000 } = none) ∧
    (checkPreconditions
        { baseRequest with ifUnmodifiedSince := DateHeader.date 1 } []
        { emptyAttrs with updated := 2500000000 } =
      some (precondFailedResponse [])) := by
  refine ⟨?_, ?_, ?_⟩
  · exact C2_date_comparison_boundaries.1 { emptyAttrs with updated := 1500000000 } []
      { baseRequest with ifModifiedSince := DateHeader.date 1 } 1
      (by decide) rfl rfl rfl rfl (by decide)
  · exact C2_date_comparison_boundaries.2.1 { emptyAttrs with updated := 1500000000 } []
      { baseRequest with ifUnmodifiedSince := DateHeader.date 1 } 1
      (by decide) rfl rfl rfl rfl (by decide)
  · exact C2_date_comparison_boundaries.2.2 { emptyAttrs with updated := 2500000000 } []
      { baseRequest with ifUnmodifiedSince := DateHeader.date 1 } 1
      (by decide) rfl rfl (by decide)

/-- Claim C3: when the evaluation resolves to not-modified (`If-None-Match`
failed, or `If-None-Match` unevaluated and `If-Modified-Since` failed), the
response is 304 with empty body, `Content-Type` and `Content-Length` are
stripped, `Last-Modified` is stripped exactly when an `ETag` header is
present, and every other synthesized header survives unchanged. -/
theorem C3_not_modified_frame (req : Request) (header : Header) (attrs : ObjectAttrs)
    (h1 : firstStage req header attrs ≠ CondResult.condFalse)
    (h2 : checkIfNoneMatch req header attrs = CondResult.condFalse ∨
      (checkIfNoneMatch req header attrs = CondResult.condNone ∧
        checkIfModifiedSince req header attrs = CondResult.condFalse)) :
    checkPreconditions req header attrs = some (notModifiedResponse header) ∧
    (notModifiedResponse header).statusCode = 304 ∧
    (notModifiedResponse header).body = HttpBody.noBody ∧
    Header.lookupRaw (notModifiedResponse header).header "Content-Type" = none ∧
    Header.lookupRaw (notModifiedResponse header).header "Content-Length" = none ∧
    (Header.get header "Etag" ≠ "" →
      Header.lookupRaw (notModifiedResponse header).header "Last-Modified" = none) ∧
    (Header.get header "Etag" = "" →
      Header.lookupRaw (notModifiedResponse header).header "Last-Modified" =
        Header.lookupRaw header "Last-Modified") ∧
    (∀ k : String, k ≠ "Content-Type" → k ≠ "Content-Length" → k ≠ "Last-Modified" →
      Header.lookupRaw (notModifiedResponse header).header k =
        Header.lookupRaw header k) := by
  refine ⟨by rw [checkPreconditions_eq, if_neg h1, if_pos h2], rfl, rfl, ?_, ?_, ?_, ?_, ?_⟩
  · rw [notModifiedResponse_header]
    by_cases hE : Header.get header "Etag" = ""
    · rw [if_neg (by simp [hE])]
      rw [lookupRaw_delRaw_ne _ _ _ (by decide), lookupRaw_delRaw_self]
    · rw [if_pos hE]
      rw [lookupRaw_delRaw_ne _ _ _ (by decide), lookupRaw_delRaw_ne _ _ _ (by decide),
        lookupRaw_delRaw_self]
  · rw [notModifiedResponse_header]
    by_cases hE : Header.get header "Etag" = ""
    · rw [if_neg (by simp [hE])]
      rw [lookupRaw_delRaw_self]
    · rw [if_pos hE]
      rw [lookupRaw_delRaw_ne _ _ _ (by decide), lookupRaw_delRaw_self]
  · intro hE
    rw [notModifiedResponse_header, if_pos hE, lookupRaw_delRaw_self]
  · intro hE
    rw [notModifiedResponse_header, if_neg (by simp [hE])]
    rw [lookupRaw_delRaw_ne _ _ _ (by decide), lookupRaw_delRaw_ne _ _ _ (by decide)]
  · intro k k1 k2 k3
    exact notModifiedResponse_lookup_other header k k1 k2 k3

theorem C3_not_modified_frame_witness :
    checkPreconditions { baseRequest with ifNoneMatch := "*" }
        [("Content-Type", ["text/plain"]), ("Content-Length", ["5"]),
         ("Last-Modified", ["x"]), ("Etag", ["\"ab\""]), ("X-Goog-Hash", ["crc32c=AAAAAA=="])]
        emptyAttrs =
      some (notModifiedResponse
        [("Content-Type", ["text/plain"]), ("Content-Length", ["5"]),
         ("Last-Modified", ["x"]), ("Etag", ["\"ab\""]),
         ("X-Goog-Hash", ["crc32c=AAAAAA=="])]) ∧
    Header.lookupRaw
      (notModifiedResponse
        [("Content-Type", ["text/plain"]), ("Content-Length", ["5"]),
         ("Last-Modified", ["x"]), ("Etag", ["\"ab\""]),
         ("X-Goog-Hash", ["crc32c=AAAAAA=="])]).header "X-Goog-Hash" =
      some ["crc32c=AAAAAA=="] := by
  refine ⟨?_, ?_⟩
  · exact (C3_not_modified_frame { baseRequest with ifNoneMatch := "*" }
      [("Content-Type", ["text/plain"]), ("Content-Length", ["5"]),
       ("Last-Modified", ["x"]), ("Etag", ["\"ab\""]), ("X-Goog-Hash", ["crc32c=AAAAAA=="])]
      emptyAttrs (by decide) (by decide)).1
  · exact (C3_not_modified_frame { baseRequest with ifNoneMatch := "*" }
      [("Content-Type", ["text/plain"]), ("Content-Length", ["5"]),
       ("Last-Modified", ["x"]), ("Etag", ["\"ab\""]), ("X-Goog-Hash", ["crc32c=AAAAAA=="])]
      emptyAttrs (by decide) (by decide)).2.2.2.2.2.2.2 "X-Goog-Hash"
      (by decide) (by decide) (by decide)

/-- Claim C4: when the `If-Match`/`If-Unmodified-Since` stage resolves to
Failed, the response is 412 with empty body and the synthesized header set
passed through completely unmodified. -/
theorem C4_precondition_failed_frame (req : Request) (header : Header)
    (attrs : ObjectAttrs)
    (h : firstStage req header attrs = CondResult.condFalse) :
    checkPreconditions req header attrs = some (precondFailedResponse header) ∧
    (precondFailedResponse header).statusCode = 412 ∧
    (precondFailedResponse header).body = HttpBody.noBody ∧
    (precondFailedResponse header).header = header := by
  exact ⟨by rw [checkPreconditions_eq, if_pos h], rfl, rfl, rfl⟩

theorem C4_precondition_failed_frame_witness :
    checkPreconditions { baseRequest with ifMatch := "\"zz\"" }
        [("Content-Type", ["text/plain"])] emptyAttrs =
      some (precondFailedResponse [("Content-Type", ["text/plain"])]) ∧
    (precondFailedResponse [("Content-Type", ["text/plain"])]).header =
      [("Content-Type", ["text/plain"])] := by
  refine ⟨?_, ?_⟩
  · exact (C4_precondition_failed_frame { baseRequest with ifMatch := "\"zz\"" }
      [("Content-Type", ["text/plain"])] emptyAttrs (by decide)).1
  · exact (C4_precondition_failed_frame { baseRequest with ifMatch := "\"zz\"" }
      [("Content-Type", ["text/plain"])] emptyAttrs (by decide)).2.2.2

/-- Claim C5: with a non-empty MD5 the synthesized `ETag` is the
double-quoted lowercase hex of the MD5 bytes and `x-goog-hash` carries
`md5=` + standard base64 of them; `x-goog-hash` always carries `crc32c=` +
standard base64 of the 4-byte big-endian CRC32-C (even when 0); with an
empty MD5 no `ETag` header is emitted. -/
theorem C5_hash_headers (attrs : ObjectAttrs) :
    (attrs.md5 ≠ [] →
      Header.get (makeHeader attrs) "ETag" = "\"" ++ hexEncode attrs.md5 ++ "\"" ∧
      ("md5=" ++ base64Encode attrs.md5) ∈ Header.values (makeHeader attrs) "x-goog-hash") ∧
    ("crc32c=" ++ base64Encode (putUint32BE attrs.crc32c)) ∈
      Header.values (makeHeader attrs) "x-goog-hash" ∧
    (attrs.md5 = [] → Header.lookupRaw (makeHeader attrs) "Etag" = none) := by
  refine ⟨?_, ?_, ?_⟩
  · intro hm
    constructor
    · simp only [Header.get, show canonicalKey "ETag" = "Etag" from by decide,
        makeHeader_etag_some attrs hm]
    · simp only [Header.values,
        show canonicalKey "x-goog-hash" = "X-Goog-Hash" from by decide,
        makeHeader_hash_values]
      simp [hm]
  · simp only [Header.values,
      show canonicalKey "x-goog-hash" = "X-Goog-Hash" from by decide,
      makeHeader_hash_values]
    simp
  · intro hm
    exact makeHeader_etag_none attrs hm

/-- Object attributes carrying the MD5/CRC32C from the repository tests. -/
def hashAttrs : ObjectAttrs :=
  { emptyAttrs with
    md5 := [0x0b, 0x46, 0xf3, 0x06, 0xe9, 0x2d, 0x88, 0x51,
            0x5e, 0x06, 0xd4, 0x8a, 0x62, 0xdc, 0xc3, 0x19],
    crc32c := 0x7f762fe2 }

theorem C5_hash_headers_witness :
    (Header.get (makeHeader hashAttrs) "ETag" =
        "\"" ++ hexEncode hashAttrs.md5 ++ "\"" ∧
      ("md5=" ++ base64Encode hashAttrs.md5) ∈
        Header.values (makeHeader hashAttrs) "x-goog-hash") ∧
    ("crc32c=" ++ base64Encode (putUint32BE hashAttrs.crc32c)) ∈
      Header.values (makeHeader hashAttrs) "x-goog-hash" ∧
    Header.lookupRaw (makeHeader emptyAttrs) "Etag" = none := by
  refine ⟨?_, ?_, ?_⟩
  · exact (C5_hash_headers hashAttrs).1 (by decide)
  · exact (C5_hash_headers hashAttrs).2.1
  · exact (C5_hash_headers emptyAttrs).2.2 (by decide)

/-- Claim C6: a non-empty URI fragment is parsed as a base-10 signed 64-bit
generation (unparseable → hard error, no HTTP response; parseable → the
lookup is pinned to exactly that generation); an empty fragment first
fetches the unversioned metadata and then pins the handle to the generation
it reports, so the GET byte stream is opened against exactly that
generation. -/
theorem C6_generation_resolution :
    (∀ (store : Store) (req : Request), req.urlFragment ≠ "" →
      parseInt64 req.urlFragment = none →
      getObject store req = Except.error (GoError.invalidGeneration req.urlFragment)) ∧
    (∀ (store : Store) (req : Request) (g : Int) (attrs : ObjectAttrs),
      req.urlFragment ≠ "" → parseInt64 req.urlFragment = some g →
      store.attrs { bucket := requestHost req, key := requestPath req, gen := some g } =
        Except.ok attrs →
      objectAttrs store req =
        Except.ok ({ bucket := requestHost req, key := requestPath req, gen := some g },
          attrs)) ∧
    (∀ (store : Store) (req : Request) (attrs : ObjectAttrs),
      req.urlFragment = "" →
      store.attrs { bucket := requestHost req, key := requestPath req, gen := none } =
        Except.ok attrs →
      objectAttrs store req =
        Except.ok ({ bucket := requestHost req, key := requestPath req,
                     gen := some attrs.generation }, attrs) ∧
      (checkPreconditions req (makeHeader attrs) attrs = none →
        store.newReader { bucket := requestHost req, key := requestPath req,
                          gen := some attrs.generation } = Except.ok () →
        getObject store req = Except.ok
          { statusCode := 200, proto := "HTTP/1.0", protoMajor := 1, protoMinor := 0,
            header := makeHeader attrs,
            body := HttpBody.stream { bucket := requestHost req, key := requestPath req,
                                      gen := some attrs.generation },
            contentLength := attrs.size, close := true })) := by
  refine ⟨?_, ?_, ?_⟩
  · intro store req hf hp
    simp [getObject, objectAttrs, hf, hp, handleError]
  · intro store req g attrs hf hp hs
    simp [objectAttrs, hf, hp, hs]
  · intro store req attrs hf hs
    constructor
    · simp [objectAttrs, hf, hs]
    · intro hcp hrd
      simp [getObject, objectAttrs, hf, hs, hcp, hrd]

/-- A store fixture serving one object at generation 1234567890, for
concrete witnesses. -/
def witnessStore : Store :=
  { attrs := fun h =>
      if h.bucket = "bucket-name" ∧ h.key = "object-key" then
        Except.ok { emptyAttrs with generation := 1234567890 }
      else Except.error GoError.objectNotExist,
    newReader := fun _ => Except.ok () }

theorem C6_generation_resolution_witness :
    (getObject witnessStore { baseRequest with urlFragment := "12x" } =
      Except.error (GoError.invalidGeneration "12x")) ∧
    (objectAttrs witnessStore { baseRequest with urlFragment := "777" } =
      Except.ok ({ bucket := "bucket-name", key := "object-key", gen := some 777 },
        { emptyAttrs with generation := 1234567890 })) ∧
    (objectAttrs witnessStore baseRequest =
      Except.ok ({ bucket := "bucket-name", key := "object-key", gen := some 1234567890 },
        { emptyAttrs with generation := 1234567890 })) ∧
    (getObject witnessStore baseRequest = Except.ok
      { statusCode := 200, proto := "HTTP/1.0", protoMajor := 1, protoMinor := 0,
        header := makeHeader { emptyAttrs with generation := 1234567890 },
        body := HttpBody.stream
          { bucket := "bucket-name", key := "object-key", gen := some 1234567890 },
        contentLength := 0, close := true }) := by
  refine ⟨?_, ?_, ?_, ?_⟩
  · exact C6_generation_resolution.1 witnessStore
      { baseRequest with urlFragment := "12x" } (by decide) (by decide)
  · exact C6_generation_resolution.2.1 witnessStore
      { baseRequest with urlFragment := "777" } 777
      { emptyAttrs with generation := 1234567890 } (by decide) (by decide) (by decide)
  · exact (C6_generation_resolution.2.2 witnessStore baseRequest
      { emptyAttrs with generation := 1234567890 } rfl (by decide)).1
  · exact (C6_generation_resolution.2.2 witnessStore baseRequest
      { emptyAttrs with generation := 1234567890 } rfl (by decide)).2
      (by decide) (by decide)

/-- Claim C7: store errors in metadata resolution translate as: the
object/bucket not-exist sentinels → 404 with empty body; a structured store
error with a status code → passthrough of exactly that code, body and header
set; anything else → a hard error with no HTTP response. -/
theorem C7_error_translation :
    (handleError GoError.objectNotExist = Except.ok
      { statusCode := 404, proto := "HTTP/1.0", protoMajor := 1, protoMinor := 0,
        header := [], body := HttpBody.noBody, contentLength := 0, close := true }) ∧
    (handleError GoError.bucketNotExist = Except.ok
      { statusCode := 404, proto := "HTTP/1.0", protoMajor := 1, protoMinor := 0,
        header := [], body := HttpBody.noBody, contentLength := 0, close := true }) ∧
    (∀ (code : Nat) (body : String) (hdr : Header),
      handleError (GoError.apiError code body hdr) = Except.ok
        { statusCode := code, proto := "HTTP/1.0", protoMajor := 1, protoMinor := 0,
          header := hdr, body := HttpBody.text body, contentLength := 0,
          close := true }) ∧
    (∀ f : String, handleError (GoError.invalidGeneration f) =
      Except.error (GoError.invalidGeneration f)) ∧
    (∀ m : String, handleError (GoError.otherError m) =
      Except.error (GoError.otherError m)) ∧
    (∀ (store : Store) (req : Request) (e : GoError),
      objectAttrs store req = Except.error e →
      getObject store req = handleError e ∧ headObject store req = handleError e) := by
  refine ⟨rfl, rfl, fun _ _ _ => rfl, fun _ => rfl, fun _ => rfl, ?_⟩
  intro store req e h
  constructor
  · simp [getObject, h]
  · simp [headObject, h]

theorem C7_error_translation_witness :
    getObject witnessStore { baseRequest with urlPath := "/missing" } =
      handleError GoError.objectNotExist ∧
    headObject witnessStore { baseRequest with urlPath := "/missing" } =
      handleError GoError.objectNotExist :=
  C7_error_translation.2.2.2.2.2 witnessStore
    { baseRequest with urlPath := "/missing" } GoError.objectNotExist (by decide)

/-- A store whose metadata fetch fails with a structured 400 error carrying
a body, and an explicit HEAD request. -/
def apiErrStore : Store :=
  { attrs := fun _ => Except.error (GoError.apiError 400 "oops" []),
    newReader := fun _ => Except.ok () }

def headRequest : Request := { baseRequest with method := "HEAD" }

/-- Claim C8 counterexample: a HEAD request whose metadata fetch fails with
a structured upstream error (status 400, body "oops") yields a response
whose body is non-empty, refuting "the response body is always empty
regardless of object size or status code". -/
theorem C8_head_counterexample :
    headObject apiErrStore headRequest =
      Except.ok { statusCode := 400, proto := "HTTP/1.0", protoMajor := 1,
                  protoMinor := 0, header := [], body := HttpBody.text "oops",
                  contentLength := 0, close := true } ∧
    HttpBody.text "oops" ≠ HttpBody.noBody := ⟨rfl, by decide⟩

/-- Claim C8 (amended): the HEAD handler never opens the byte stream (its
result does not depend on the store's reader); whenever metadata resolution
succeeds the body is empty (200, 304 and 412 responses), and on 200 the
`Content-Length` header still reflects the would-be body size from the
metadata; only upstream-error passthrough responses can carry a body. -/
theorem C8_head_no_stream_empty_body :
    (∀ (f : ObjectHandle → Except GoError ObjectAttrs)
        (r1 r2 : ObjectHandle → Except GoError Unit) (req : Request),
      headObject { attrs := f, newReader := r1 } req =
        headObject { attrs := f, newReader := r2 } req) ∧
    (∀ (store : Store) (req : Request) (p : ObjectHandle × ObjectAttrs) (r : Response),
      objectAttrs store req = Except.ok p →
      headObject store req = Except.ok r → r.body = HttpBody.noBody) ∧
    (∀ (store : Store) (req : Request) (p : ObjectHandle × ObjectAttrs),
      objectAttrs store req = Except.ok p →
      checkPreconditions req (makeHeader p.2) p.2 = none →
      headObject store req = Except.ok
        { statusCode := 200, proto := "HTTP/1.0", protoMajor := 1, protoMinor := 0,
          header := makeHeader p.2, body := HttpBody.noBody, contentLength := 0,
          close := true } ∧
      (p.2.size ≠ 0 →
        Header.get (makeHeader p.2) "Content-Length" = toString p.2.size)) := by
  refine ⟨?_, ?_, ?_⟩
  · intro f r1 r2 req
    rfl
  · intro store req p r ha hh
    obtain ⟨obj, a⟩ := p
    unfold headObject at hh
    rw [ha] at hh
    cases hc : checkPreconditions req (makeHeader a) a with
    | some resp =>
      simp only [hc] at hh
      cases hh
      exact (checkPreconditions_some_shape _ _ _ _ hc).2.2.2.2
    | none =>
      simp only [hc] at hh
      cases hh
      rfl
  · intro store req p ha hcp
    obtain ⟨obj, a⟩ := p
    constructor
    · simp [headObject, ha, hcp]
    · intro hs
      simp only [Header.get,
        show canonicalKey "Content-Length" = "Content-Length" from by decide,
        makeHeader_contentLength, if_neg hs]

/-- A store serving an object of size 27 whose reader must never be used. -/
def sizedStore : Store :=
  { attrs := fun _ => Except.ok { emptyAttrs with size := 27 },
    newReader := fun _ => Except.error (GoError.otherError "no reader") }

theorem C8_head_no_stream_empty_body_witness :
    (headObject { attrs := fun _ => Except.ok { emptyAttrs with size := 27 },
                  newReader := fun _ => Except.ok () } headRequest =
      headObject sizedStore headRequest) ∧
    ({ statusCode := 200, proto := "HTTP/1.0", protoMajor := 1, protoMinor := 0,
       header := makeHeader { emptyAttrs with size := 27 }, body := HttpBody.noBody,
       contentLength := 0, close := true } : Response).body = HttpBody.noBody ∧
    headObject sizedStore headRequest = Except.ok
      { statusCode := 200, proto := "HTTP/1.0", protoMajor := 1, protoMinor := 0,
        header := makeHeader { emptyAttrs with size := 27 }, body := HttpBody.noBody,
        contentLength := 0, close := true } ∧
    Header.get (makeHeader { emptyAttrs with size := 27 }) "Content-Length" =
      toString ({ emptyAttrs with size := 27 } : ObjectAttrs).size := by
  refine ⟨?_, ?_, ?_, ?_⟩
  · exact C8_head_no_stream_empty_body.1
      (fun _ => Except.ok { emptyAttrs with size := 27 })
      (fun _ => Except.ok ()) (fun _ => Except.error (GoError.otherError "no reader"))
      headRequest
  · exact C8_head_no_stream_empty_body.2.1 sizedStore headRequest
      ({ bucket := "bucket-name", key := "object-key", gen := some 0 },
        { emptyAttrs with size := 27 })
      { statusCode := 200, proto := "HTTP/1.0", protoMajor := 1, protoMinor := 0,
        header := makeHeader { emptyAttrs with size := 27 }, body := HttpBody.noBody,
        contentLength := 0, close := true }
      (by decide) (by decide)
  · exact (C8_head_no_stream_empty_body.2.2 sizedStore headRequest
      ({ bucket := "bucket-name", key := "object-key", gen := some 0 },
        { emptyAttrs with size := 27 }) (by decide) (by decide)).1
  · exact (C8_head_no_stream_empty_body.2.2 sizedStore headRequest
      ({ bucket := "bucket-name", key := "object-key", gen := some 0 },
        { emptyAttrs with size := 27 }) (by decide) (by decide)).2 (by decide)

/-- Claim C9: any method other than GET/HEAD gets an immediate 405 with
empty body and `Close` set, independent of the store; and every successful
result of the dispatcher is an HTTP/1.0 response with `Close` set. -/
theorem C9_dispatch_and_response_invariants :
    (∀ (store : Store) (req : Request), req.method ≠ "GET" → req.method ≠ "HEAD" →
      RoundTrip store req = Except.ok
        { statusCode := 405, proto := "HTTP/1.0", protoMajor := 1, protoMinor := 0,
          header := [], body := HttpBody.noBody, contentLength := 0, close := true }) ∧
    (∀ (store store' : Store) (req : Request),
      req.method ≠ "GET" → req.method ≠ "HEAD" →
      RoundTrip store req = RoundTrip store' req) ∧
    (∀ (store : Store) (req : Request) (r : Response),
      RoundTrip store req = Except.ok r →
      r.proto = "HTTP/1.0" ∧ r.protoMajor = 1 ∧ r.protoMinor = 0 ∧ r.close = true) := by
  refine ⟨?_, ?_, ?_⟩
  · intro store req h1 h2
    simp [RoundTrip, h1, h2]
  · intro store store' req h1 h2
    simp [RoundTrip, h1, h2]
  · intro store req r h
    unfold RoundTrip at h
    by_cases hg : req.method = "GET"
    · rw [if_pos hg] at h
      exact getObject_ok_shape store req r h
    · rw [if_neg hg] at h
      by_cases hh : req.method = "HEAD"
      · rw [if_pos hh] at h
        exact headObject_ok_shape store req r h
      · rw [if_neg hh] at h
        cases h
        exact ⟨rfl, rfl, rfl, rfl⟩

def postRequest : Request := { baseRequest with method := "POST" }

theorem C9_dispatch_and_response_invariants_witness :
    (RoundTrip sizedStore postRequest = Except.ok
      { statusCode := 405, proto := "HTTP/1.0", protoMajor := 1, protoMinor := 0,
        header := [], body := HttpBody.noBody, contentLength := 0, close := true }) ∧
    (RoundTrip sizedStore postRequest = RoundTrip witnessStore postRequest) ∧
    (({ statusCode := 405, proto := "HTTP/1.0", protoMajor := 1, protoMinor := 0,
        header := [], body := HttpBody.noBody, contentLength := 0,
        close := true } : Response).proto = "HTTP/1.0" ∧
      ({ statusCode := 405, proto := "HTTP/1.0", protoMajor := 1, protoMinor := 0,
         header := [], body := HttpBody.noBody, contentLength := 0,
         close := true } : Response).protoMajor = 1 ∧
      ({ statusCode := 405, proto := "HTTP/1.0", protoMajor := 1, protoMinor := 0,
         header := [], body := HttpBody.noBody, contentLength := 0,
         close := true } : Response).protoMinor = 0 ∧
      ({ statusCode := 405, proto := "HTTP/1.0", protoMajor := 1, protoMinor := 0,
         header := [], body := HttpBody.noBody, contentLength := 0,
         close := true } : Response).close = true) := by
  refine ⟨?_, ?_, ?_⟩
  · exact C9_dispatch_and_response_invariants.1 sizedStore postRequest
      (by decide) (by decide)
  · exact C9_dispatch_and_response_invariants.2.1 sizedStore witnessStore postRequest
      (by decide) (by decide)
  · exact C9_dispatch_and_response_invariants.2.2 sizedStore postRequest _
      (by decide)

/-- Claim C10: an `If-Modified-Since`/`If-Unmodified-Since` value that does
not parse as an HTTP date makes that check Unevaluated, exactly as if the
header were absent, rather than failing the request; likewise when the
object's modification time is the zero value. -/
theorem C10_unparseable_dates_unevaluated (req : Request) (header : Header)
    (attrs : ObjectAttrs) :
    (checkIfUnmodifiedSince { req with ifUnmodifiedSince := DateHeader.malformed }
        header attrs = CondResult.condNone ∧
      checkIfUnmodifiedSince { req with ifUnmodifiedSince := DateHeader.malformed }
        header attrs =
        checkIfUnmodifiedSince { req with ifUnmodifiedSince := DateHeader.absent }
          header attrs) ∧
    (checkIfModifiedSince { req with ifModifiedSince := DateHeader.malformed }
        header attrs = CondResult.condNone ∧
      checkIfModifiedSince { req with ifModifiedSince := DateHeader.malformed }
        header attrs =
        checkIfModifiedSince { req with ifModifiedSince := DateHeader.absent }
          header attrs) ∧
    (attrs.updated = 0 →
      checkIfUnmodifiedSince req header attrs = CondResult.condNone ∧
      checkIfModifiedSince req header attrs = CondResult.condNone) := by
  refine ⟨⟨?_, ?_⟩, ⟨?_, ?_⟩, ?_⟩
  · by_cases hu : attrs.updated = 0 <;>
      simp [checkIfUnmodifiedSince, parseTime, hu]
  · by_cases hu : attrs.updated = 0 <;>
      simp [checkIfUnmodifiedSince, parseTime, hu]
  · by_cases hu : attrs.updated = 0 <;>
      simp [checkIfModifiedSince, parseTime, hu]
  · by_cases hu : attrs.updated = 0 <;>
      simp [checkIfModifiedSince, parseTime, hu]
  · intro hu
    constructor
    · simp [checkIfUnmodifiedSince, hu]
    · simp [checkIfModifiedSince, hu]

theorem C10_unparseable_dates_unevaluated_witness :
    checkIfUnmodifiedSince { baseRequest with ifUnmodifiedSince := DateHeader.malformed }
        [] emptyAttrs = CondResult.condNone ∧
    checkIfModifiedSince { baseRequest with ifModifiedSince := DateHeader.malformed }
        [] emptyAttrs = CondResult.condNone ∧
    checkIfUnmodifiedSince baseRequest [] emptyAttrs = CondResult.condNone ∧
    checkIfModifiedSince baseRequest [] emptyAttrs = CondResult.condNone := by
  refine ⟨?_, ?_, ?_, ?_⟩
  · exact (C10_unparseable_dates_unevaluated baseRequest [] emptyAttrs).1.1
  · exact (C10_unparseable_dates_unevaluated baseRequest [] emptyAttrs).2.1.1
  · exact ((C10_unparseable_dates_unevaluated baseRequest [] emptyAttrs).2.2 rfl).1
  · exact ((C10_unparseable_dates_unevaluated baseRequest [] emptyAttrs).2.2 rfl).2

end GS
